import Mathlib

/-!
Verification of the ds4u DualSense companion: a shallow embedding of the
HID report codec, the device session, the firmware updater, the daemon
gate and the input transform, with theorems about the documented
behaviour. Buffers are lists of byte values (Nat), effectful reads are
modelled by passing the read data explicitly, and timers are modelled by
explicit traces or counters.
-/

/- Constants from src/common.rs and src/dualsense.rs. -/

def DS_VID : Nat := 0x054c
def DS_PID : Nat := 0x0ce6
def DSE_PID : Nat := 0x0df2
def FIRMWARE_SIZE : Nat := 950272

def OUTPUT_CRC32_SEED : Nat := 0xa2

def DS_INPUT_REPORT_USB : Nat := 0x01
def DS_INPUT_REPORT_USB_SIZE : Nat := 64
def DS_INPUT_REPORT_BT : Nat := 0x31
def DS_INPUT_REPORT_BT_SIZE : Nat := 78

def DS_OUTPUT_REPORT_USB : Nat := 0x02
def DS_OUTPUT_REPORT_BT : Nat := 0x31
def DS_OUTPUT_REPORT_BT_SIZE : Nat := 78
def DS_OUTPUT_TAG : Nat := 0x10

def DS_OUTPUT_VALID_FLAG0_RIGHT_TRIGGER_MOTOR_ENABLE : Nat := 1 <<< 2
def DS_OUTPUT_VALID_FLAG0_LEFT_TRIGGER_MOTOR_ENABLE : Nat := 1 <<< 3
def DS_OUTPUT_VALID_FLAG0_HEADPHONE_VOLUME_ENABLE : Nat := 1 <<< 4
def DS_OUTPUT_VALID_FLAG0_SPEAKER_VOLUME_ENABLE : Nat := 1 <<< 5
def DS_OUTPUT_VALID_FLAG0_AUDIO_CONTROL_ENABLE : Nat := 1 <<< 7

def DS_OUTPUT_VALID_FLAG1_MIC_MUTE_LED_CONTROL_ENABLE : Nat := 1 <<< 0
def DS_OUTPUT_VALID_FLAG1_POWER_SAVE_CONTROL_ENABLE : Nat := 1 <<< 1
def DS_OUTPUT_VALID_FLAG1_LIGHTBAR_CONTROL_ENABLE : Nat := 1 <<< 2
def DS_OUTPUT_VALID_FLAG1_PLAYER_INDICATOR_CONTROL_ENABLE : Nat := 1 <<< 4
def DS_OUTPUT_VALID_FLAG1_VIBRATION_ATTENUATION_ENABLE : Nat := 1 <<< 6

def DS_OUTPUT_VALID_FLAG2_LIGHTBAR_SETUP_CONTROL_ENABLE : Nat := 1 <<< 1

def DS_OUTPUT_POWER_SAVE_CONTROL_AUDIO : Nat := 1 <<< 3
def DS_OUTPUT_POWER_SAVE_CONTROL_MIC_MUTE : Nat := 1 <<< 4

def DS_OUTPUT_LIGHTBAR_SETUP_LIGHT_ON : Nat := 1 <<< 0
def DS_OUTPUT_LIGHTBAR_SETUP_LIGHT_OFF : Nat := 1 <<< 1

def DS_OUTPUT_AUDIO_OUTPUT_PATH_SHIFT : Nat := 4

def DS_STATUS_BATTERY_CAPACITY : Nat := 0x0f
def DS_STATUS_CHARGING : Nat := 0xf0
def DS_STATUS_CHARGING_SHIFT : Nat := 4

def DS_BATTERY_THRESHOLD : Nat := 10

def DS_TRIGGER_EFFECT_OFF : Nat := 0x05
def DS_TRIGGER_EFFECT_FEEDBACK : Nat := 0x21

/- CRC32 with the ISO HDLC polynomial (the crc crate algorithm used by
calc_crc32): reflected polynomial 0xEDB88320, initial value 0xFFFFFFFF,
final xor 0xFFFFFFFF. Verified against the standard check value: the
digest of the nine ASCII digits 1..9 is 0xCBF43926. -/

def crc32_round (c : Nat) : Nat :=
  if c % 2 = 1 then (c / 2) ^^^ 0xEDB88320 else c / 2

def crc32_pushByte (c b : Nat) : Nat :=
  crc32_round^[8] (c ^^^ b)

def crc32 (data : List Nat) : Nat :=
  (data.foldl crc32_pushByte 0xFFFFFFFF) ^^^ 0xFFFFFFFF

/-- Little-endian byte serialization of a 32-bit value, as in
u32 to_le_bytes. -/
def u32_le_bytes (x : Nat) : List Nat :=
  [x % 256, x / 256 % 256, x / 65536 % 256, x / 16777216 % 256]

/- Device session state (struct DualSense). The HID handle itself is
external; the fields that drive report construction are kept. -/

structure DSState where
  is_bt : Bool
  output_seq : Nat
  update_mode : Bool
deriving DecidableEq, Repr

/-- Translation of DualSense init_output_report: a fresh zeroed buffer
per transport; on BT byte 0 is the report id 0x31, byte 1 the rolling
sequence shifted left by 4 (u8), byte 2 the output tag, and the sequence
advances modulo 16; on USB a 63-byte buffer with first byte 0x02. -/
def init_output_report (ds : DSState) : List Nat × DSState :=
  if ds.is_bt then
    let buf := (((List.replicate DS_OUTPUT_REPORT_BT_SIZE 0).set 0 DS_OUTPUT_REPORT_BT).set 1
        ((ds.output_seq <<< 4) % 256)).set 2 DS_OUTPUT_TAG
    (buf, { ds with output_seq := (ds.output_seq + 1) % 16 })
  else
    (((List.replicate (DS_INPUT_REPORT_USB_SIZE - 1) 0).set 0 DS_OUTPUT_REPORT_USB), ds)

/-- Translation of DualSense calc_crc32: digest of the seed byte 0xA2
followed by the buffer up to but excluding the last 4 bytes. -/
def calc_crc32 (data : List Nat) : Nat :=
  crc32 (OUTPUT_CRC32_SEED :: data.take (data.length - 4))

/-- Translation of DualSense send_output_report: a no-op while the
update flag is set (nothing is written); on BT the trailing 4 bytes are
replaced by the little-endian CRC32 before the write. The returned value
is the buffer handed to the HID write, or none when nothing is sent. -/
def send_output_report (ds : DSState) (data : List Nat) : Option (List Nat) :=
  if ds.update_mode then none
  else if ds.is_bt then
    let crc := calc_crc32 data
    some (data.take (data.length - 4) ++ u32_le_bytes crc)
  else
    some data

/-- Helper for the param-copy loops of set_trigger_effect: write the
bytes of ps into buf starting at index i. -/
def writeSlice : List Nat → Nat → List Nat → List Nat
  | buf, _, [] => buf
  | buf, i, p :: ps => writeSlice (buf.set i p) (i + 1) ps

def PLAYER_LED_PATTERNS : List Nat := [0b00000, 0b00100, 0b01010, 0b10101, 0b11011, 0b11111, 0b10001, 0b01110]

inductive MicLedState where
  | off
  | on
  | pulse
deriving DecidableEq, Repr

/-- The output operations of the device session (the set_xxx methods of
impl DualSense), with their arguments. -/
inductive OutCmd where
  | setLightbar (r g b brightness : Nat)
  | setLightbarEnabled (enabled : Bool)
  | setPlayerLeds (n : Nat)
  | setSpeaker (mode : String)
  | setVolume (volume : Nat)
  | setVibration (rumble trigger : Nat)
  | setMic (enabled : Bool)
  | setMicLed (state : MicLedState)
  | setTriggerEffect (left right : Bool) (mode : Nat) (params : List Nat)
  | setTriggerOff

/-- Body writes of set_trigger_effect on an already initialized report
buffer: or the trigger-motor-enable bits into the flag byte, then write
mode plus up to ten param bytes into the right slot and again into the
left slot. -/
def trigger_effect_build (offset : Nat) (left right : Bool) (mode : Nat) (params : List Nat)
    (buf0 : List Nat) : List Nat :=
  let buf := if right then
      buf0.set offset (buf0.getD offset 0 ||| DS_OUTPUT_VALID_FLAG0_RIGHT_TRIGGER_MOTOR_ENABLE)
    else buf0
  let buf := if left then
      buf.set offset (buf.getD offset 0 ||| DS_OUTPUT_VALID_FLAG0_LEFT_TRIGGER_MOTOR_ENABLE)
    else buf
  let buf := buf.set (offset + 10) mode
  let buf := writeSlice buf (offset + 11) (params.take 10)
  let buf := buf.set (offset + 21) mode
  writeSlice buf (offset + 22) (params.take 10)

/-- One session output operation, translated method by method from
impl DualSense: build a fresh report, write the payload for the
operation, then send it. Returns the transmitted buffer (none when the
operation bails out early or the update flag suppresses the write)
together with the successor session state. -/
def run_command (ds : DSState) (cmd : OutCmd) : Option (List Nat) × DSState :=
  match cmd with
  | .setLightbar r g b brightness =>
      let ds1 := (init_output_report ds).2
      let buf := (init_output_report ds).1
      let offset := if ds.is_bt then 3 else 1
      let buf := buf.set (offset + 1) DS_OUTPUT_VALID_FLAG1_LIGHTBAR_CONTROL_ENABLE
      let buf := buf.set (offset + 44) ((brightness * r) / 255 % 256)
      let buf := buf.set (offset + 45) ((brightness * g) / 255 % 256)
      let buf := buf.set (offset + 46) ((brightness * b) / 255 % 256)
      (send_output_report ds1 buf, ds1)
  | .setLightbarEnabled enabled =>
      let ds1 := (init_output_report ds).2
      let buf := (init_output_report ds).1
      let offset := if ds.is_bt then 3 else 1
      let buf := buf.set (offset + 38) DS_OUTPUT_VALID_FLAG2_LIGHTBAR_SETUP_CONTROL_ENABLE
      let buf := buf.set (offset + 41)
        (if enabled then DS_OUTPUT_LIGHTBAR_SETUP_LIGHT_ON else DS_OUTPUT_LIGHTBAR_SETUP_LIGHT_OFF)
      (send_output_report ds1 buf, ds1)
  | .setPlayerLeds n =>
      if n ≥ PLAYER_LED_PATTERNS.length then (none, ds)
      else
        let ds1 := (init_output_report ds).2
      let buf := (init_output_report ds).1
        let offset := if ds.is_bt then 3 else 1
        let buf := buf.set (offset + 1) DS_OUTPUT_VALID_FLAG1_PLAYER_INDICATOR_CONTROL_ENABLE
        let buf := buf.set (offset + 43) (PLAYER_LED_PATTERNS.getD n 0)
        (send_output_report ds1 buf, ds1)
  | .setSpeaker mode =>
      let ds1 := (init_output_report ds).2
      let buf := (init_output_report ds).1
      let offset := if ds.is_bt then 3 else 1
      let buf := buf.set offset DS_OUTPUT_VALID_FLAG0_AUDIO_CONTROL_ENABLE
      let buf := buf.set (offset + 7)
        (if mode = "internal" then 3 <<< DS_OUTPUT_AUDIO_OUTPUT_PATH_SHIFT
         else if mode = "headphone" then 0
         else if mode = "both" then 2 <<< DS_OUTPUT_AUDIO_OUTPUT_PATH_SHIFT
         else 0)
      (send_output_report ds1 buf, ds1)
  | .setVolume volume =>
      let ds1 := (init_output_report ds).2
      let buf := (init_output_report ds).1
      let offset := if ds.is_bt then 3 else 1
      let buf := buf.set offset DS_OUTPUT_VALID_FLAG0_HEADPHONE_VOLUME_ENABLE
      let buf := buf.set (offset + 4) (volume * 0x7f / 255 % 256)
      let buf := buf.set offset
        (buf.getD offset 0 ||| DS_OUTPUT_VALID_FLAG0_SPEAKER_VOLUME_ENABLE)
      let buf := buf.set (offset + 5) (volume * 0x64 / 255 % 256)
      (send_output_report ds1 buf, ds1)
  | .setVibration rumble trigger =>
      let ds1 := (init_output_report ds).2
      let buf := (init_output_report ds).1
      let offset := if ds.is_bt then 3 else 1
      let buf := buf.set (offset + 1) DS_OUTPUT_VALID_FLAG1_VIBRATION_ATTENUATION_ENABLE
      let buf := buf.set (offset + 36) ((rumble &&& 0x07) ||| ((trigger &&& 0x07) <<< 4))
      (send_output_report ds1 buf, ds1)
  | .setMic enabled =>
      let ds1 := (init_output_report ds).2
      let buf := (init_output_report ds).1
      let offset := if ds.is_bt then 3 else 1
      let buf := buf.set (offset + 1) DS_OUTPUT_VALID_FLAG1_POWER_SAVE_CONTROL_ENABLE
      let buf := if enabled then
          let b1 := buf.set (offset + 9)
            (Nat.land (buf.getD (offset + 9) 0) (255 - DS_OUTPUT_POWER_SAVE_CONTROL_MIC_MUTE))
          b1.set (offset + 9)
            (Nat.land (b1.getD (offset + 9) 0) (255 - DS_OUTPUT_POWER_SAVE_CONTROL_AUDIO))
        else
          buf.set (offset + 9) (buf.getD (offset + 9) 0 ||| DS_OUTPUT_POWER_SAVE_CONTROL_MIC_MUTE)
      (send_output_report ds1 buf, ds1)
  | .setMicLed state =>
      let ds1 := (init_output_report ds).2
      let buf := (init_output_report ds).1
      let offset := if ds.is_bt then 3 else 1
      let buf := buf.set (offset + 1) DS_OUTPUT_VALID_FLAG1_MIC_MUTE_LED_CONTROL_ENABLE
      let buf := buf.set (offset + 8)
        (match state with | .off => 0 | .on => 1 | .pulse => 2)
      (send_output_report ds1 buf, ds1)
  | .setTriggerEffect left right mode params =>
      let ds1 := (init_output_report ds).2
      let buf := (init_output_report ds).1
      let offset := if ds.is_bt then 3 else 1
      let buf := trigger_effect_build offset left right mode params buf
      (send_output_report ds1 buf, ds1)
  | .setTriggerOff =>
      let ds1 := (init_output_report ds).2
      let buf := (init_output_report ds).1
      let offset := if ds.is_bt then 3 else 1
      let buf := trigger_effect_build offset true true DS_TRIGGER_EFFECT_OFF (List.replicate 10 0) buf
      (send_output_report ds1 buf, ds1)

/- Battery decoding (DualSense get_battery). -/

structure BatteryInfo where
  capacity : Nat
  status : String
deriving DecidableEq, Repr

/-- The status-byte interpretation inside get_battery: low nibble is the
charge datum, high nibble the charging state; the match over the
charging state produces capacity and status text. -/
def battery_decode (status_byte : Nat) : BatteryInfo :=
  let bat_data := status_byte &&& DS_STATUS_BATTERY_CAPACITY
  let charging_status := (status_byte &&& DS_STATUS_CHARGING) >>> DS_STATUS_CHARGING_SHIFT
  match charging_status with
  | 0x0 => ⟨min (bat_data * 10 + 5) 100, "Discharging"⟩
  | 0x1 => ⟨min (bat_data * 10 + 5) 100, "Charging"⟩
  | 0x2 => ⟨min (bat_data * 10 + 5) 100, "Full"⟩
  | 0xa => ⟨0, "Not charging"⟩
  | 0xb => ⟨0, "Not charging"⟩
  | _ => ⟨0, "Unknown"⟩

/-- Translation of DualSense get_battery: the update flag and a zero
read size abort; the report id and size are checked per transport; the
status byte sits at offset 53 (USB) or 54 (BT) from the report start. -/
def get_battery (ds : DSState) (buf : List Nat) (size : Nat) : Option BatteryInfo :=
  if ds.update_mode then none
  else if size = 0 then none
  else
    let report := if ds.is_bt then DS_INPUT_REPORT_BT else DS_INPUT_REPORT_USB
    let report_size := if ds.is_bt then DS_INPUT_REPORT_BT_SIZE else DS_INPUT_REPORT_USB_SIZE
    let status_offset := if ds.is_bt then 54 else 53
    if buf.getD 0 0 ≠ report ∨ size ≠ report_size then none
    else some (battery_decode (buf.getD status_offset 0))

/- Firmware update prechecks (DualSense update_firmware and
check_firmware_compatibility). The battery level is the result of the
get_battery read done inside update_firmware. -/

inductive FwError where
  | bluetoothRefused
  | invalidSize
  | batteryLow
  | fileTooSmall
  | incompatible
deriving DecidableEq, Repr

/-- Translation of check_firmware_compatibility: reject files under 0x80
bytes, then compare the little-endian u16 at offsets 0x62 and 0x63 with
the product id of the connected device. The version logging performs no
check. -/
def check_firmware_compatibility (product_id : Nat) (firmware_data : List Nat) : Option FwError :=
  if firmware_data.length < 0x80 then some .fileTooSmall
  else
    let fw_product_id := firmware_data.getD 0x62 0 + 256 * firmware_data.getD 0x63 0
    if fw_product_id ≠ product_id then some .incompatible else none

/-- The precondition ladder of update_firmware, in source order:
Bluetooth transport, payload size, battery level, firmware
compatibility. Returns the first error hit, none when flashing can
begin. -/
def update_firmware_precheck (is_bt : Bool) (firmware_data : List Nat)
    (battery_capacity : Nat) (product_id : Nat) : Option FwError :=
  if is_bt then some .bluetoothRefused
  else if firmware_data.length ≠ FIRMWARE_SIZE then some .invalidSize
  else if battery_capacity < DS_BATTERY_THRESHOLD then some .batteryLow
  else check_firmware_compatibility product_id firmware_data

/- Status polling (DualSense firmware_wait_status). One poll reads the
0xF5 feature report; byte 1 is the phase, byte 2 the status. -/

inductive PollAction where
  | success
  | retry
  | fail (msg : String)
deriving DecidableEq, Repr

/-- Classification of one status poll, translated from the match ladder
of firmware_wait_status: a phase other than the expected one fails
immediately, otherwise the per-phase status table decides between
returning, retrying after the 10 ms sleep, and failing. -/
def poll_classify (expected phase status : Nat) : PollAction :=
  if phase ≠ expected then .fail "Unexpected phase"
  else match expected with
  | 0x00 =>
    match status with
    | 0x00 => .success
    | 0x04 => .retry
    | 0x10 => .retry
    | 0x01 => .fail "Start error 0x01: firmware rejected"
    | 0x02 => .fail "Start error 0x02: invalid firmware"
    | 0x03 => .fail "Start error 0x03: invalid firmware"
    | 0x05 => .fail "Start error 0x05: battery or power error"
    | 0x06 => .fail "Start error 0x06: temperature or safety error"
    | 0x11 => .fail "Start error 0x11: invalid firmware"
    | 0xFF => .fail "Start error 0xFF: internal error"
    | _ => .fail "Start unknown status"
  | 0x01 =>
    match status with
    | 0x00 => .success
    | 0x03 => .success
    | 0x01 => .retry
    | 0x10 => .retry
    | 0x02 => .fail "Write error 0x02: invalid firmware data"
    | 0x04 => .fail "Write error 0x04: invalid firmware data"
    | 0x11 => .fail "Write error 0x11: invalid firmware"
    | 0xFF => .fail "Write error 0xFF: internal error"
    | _ => .fail "Write unknown status"
  | 0x02 =>
    match status with
    | 0x00 => .success
    | 0x10 => .retry
    | 0x01 => .fail "Verify error 0x01: firmware rejected"
    | 0x02 => .fail "Verify error 0x02: checksum mismatch"
    | 0x03 => .fail "Verify error 0x03: invalid firmware"
    | 0x04 => .fail "Verify error 0x04: invalid firmware"
    | 0x11 => .fail "Verify error 0x11: invalid firmware"
    | 0xFF => .fail "Verify error 0xFF: internal error"
    | _ => .fail "Verify unknown status"
  | _ => .fail "Unknown phase"

/-- The polling loop over a trace of (phase, status) readings; the 30 s
timeout is modelled by exhaustion of the trace, whose length bounds the
number of 10 ms retry sleeps the wall clock allows. -/
def firmware_wait_status (expected : Nat) : List (Nat × Nat) → Except String Unit
  | [] => .error "Firmware update timeout"
  | (phase, status) :: rest =>
    match poll_classify expected phase status with
    | .success => .ok ()
    | .fail msg => .error msg
    | .retry => firmware_wait_status expected rest

/-- Restatement of the per-phase status table exactly as the claim and
spec section 4.3 give it, used to check the translation against the
documented table. -/
def claimed_status_action (expected status : Nat) : PollAction :=
  if expected = 0x00 then
    if status = 0x00 then .success
    else if status = 0x04 ∨ status = 0x10 then .retry
    else .fail "fail"
  else if expected = 0x01 then
    if status = 0x00 ∨ status = 0x03 then .success
    else if status = 0x01 ∨ status = 0x10 then .retry
    else .fail "fail"
  else if expected = 0x02 then
    if status = 0x00 then .success
    else if status = 0x10 then .retry
    else .fail "fail"
  else .fail "fail"

/-- Forgetful view of a poll action that keeps only which of the three
outcome kinds occurred (the claim fixes messages nowhere). -/
def poll_kind : PollAction → Nat
  | .success => 0
  | .retry => 1
  | .fail _ => 2

/- Firmware body write and progress reporting (DualSense
firmware_write, update_firmware, and the flash worker of
App flash_latest). -/

/-- Offsets visited by a Rust range with step_by: start, start + step,
and so on below stop. -/
def stepBy (start stop step : Nat) : List Nat :=
  (List.range ((stop - start + step - 1) / step)).map (fun i => start + i * step)

/-- The progress value reported after the body chunk at page offset plus
chunk offset, translated from the arithmetic in firmware_write. -/
def chunk_progress (total_size offset chunk_offset : Nat) : Nat :=
  let global_offset := offset + chunk_offset
  let remaining := 0x8000 - chunk_offset
  let packet_size := min remaining 57
  let actual_size := min (total_size - global_offset) packet_size
  let written := global_offset - 256 + actual_size
  let progress := min (written * 90 / max (total_size - 256) 1 + 5) 95
  min progress 95

/-- The chunk offsets of one 0x8000-byte page that the inner loop of
firmware_write visits before the break on the end of the payload. -/
def page_chunks (total_size offset : Nat) : List Nat :=
  (stepBy 0 0x8000 57).takeWhile (fun chunk_offset => offset + chunk_offset < total_size)

/-- The progress values emitted for one page. -/
def page_progress (total_size offset : Nat) : List Nat :=
  (page_chunks total_size offset).map (chunk_progress total_size offset)

/-- The sequence of progress values emitted by firmware_write: outer
pages of 0x8000 bytes starting at offset 256, inner chunks of 57 bytes,
stopping (break) at the first chunk beyond the payload. -/
def firmware_write_progress (total_size : Nat) : List Nat :=
  (stepBy 256 total_size 0x8000).flatMap (page_progress total_size)

/-- All progress values emitted by a fully successful update_firmware
run: the precheck milestone 0, the prologue milestone 5, the body
values, then 95, 98 and 100. -/
def update_firmware_progress (total_size : Nat) : List Nat :=
  0 :: 5 :: (firmware_write_progress total_size ++ [95, 98, 100])

/-- The flash progress values mapped into the upper half of the range
by the combined download-plus-flash worker: 50 + p / 2 for each p that
update_firmware reports on a full-size payload. -/
def flash_half_progress : List Nat :=
  (update_firmware_progress FIRMWARE_SIZE).map (fun p => 50 + p / 2)

/- The flash worker spawned by App flash_latest, as a pure event
trace. The downloader is external: its progress callbacks are an
arbitrary list of values and it can fail; the flash part emits a prefix
of the update_firmware values, all of it exactly when the flash
succeeds. -/

inductive FlashEvent where
  | progress (p : Nat)
  | statusText (s : String)
  | complete
  | error (msg : String)
deriving DecidableEq, Repr

/-- Events sent by one update_firmware call that stops after k progress
callbacks when k falls short of the full run, with the terminal event
the worker then posts. -/
def flash_run_events (full : List Nat) (k : Nat) : List FlashEvent :=
  if k < full.length then (full.take k).map .progress ++ [.error "flash failed"]
  else full.map .progress ++ [.complete]

/-- Translation of the worker closure in flash_latest: download progress
is halved, a failed download posts one error; otherwise one status line,
the flash progress mapped through 50 + p / 2, and the terminal event of
the flash. -/
def flash_latest_events (download_ps : List Nat) (download_ok : Bool) (k : Nat) : List FlashEvent :=
  (download_ps.map (fun p => FlashEvent.progress (p / 2))) ++
    (if download_ok then
      FlashEvent.statusText "Flashing..." :: flash_run_events flash_half_progress k
     else [FlashEvent.error "download failed"])

/-- The progress values carried by a trace, in order. -/
def progress_values (events : List FlashEvent) : List Nat :=
  events.filterMap (fun e => match e with | .progress p => some p | _ => none)

/-- Whether an event ends a flash. -/
def is_terminal : FlashEvent → Bool
  | .complete => true
  | .error _ => true
  | _ => false

/- Daemon model (daemon.rs). The device handle is exclusive; dispatch
talks to the device, so its response is an oracle input here. -/

inductive DaemonCommand where
  | ping
  | getBattery
  | getInputState
  | getFirmwareInfo
  | getControllerInfo
  | setLightbar (r g b brightness : Nat)
  | setLightbarEnabled (enabled : Bool)
  | setPlayerLeds (leds : Nat)
  | setMic (enabled : Bool)
  | setMicLed (state : MicLedState)
  | setTriggerOff
  | setTriggerEffect (right left : Bool) (effect_type : Nat) (params : List Nat)
  | setVibration (rumble trigger : Nat)
  | setSpeaker (mode : String)
  | setVolume (volume : Nat)
  | setUpdateMode (active : Bool)
deriving DecidableEq, Repr

inductive DaemonResponse where
  | pong
  | ok
  | error (message : String)
  | noDevice
  | battery (info : BatteryInfo)
  | inputState
  | firmwareInfo (version : Nat) (build_date build_time : String)
  | controllerInfo (serial : String) (product_id : Nat) (is_bt : Bool)
deriving DecidableEq, Repr

structure DaemonState where
  device : Option DSState
  update_in_progress : Bool
deriving DecidableEq, Repr

/-- One command handled by handle_client. Ping answers Pong without
touching the gate; SetUpdateMode stores the flag and on activation drops
the session; every other command is refused while the update flag is
set, answers NoDevice without a session, and otherwise forwards to
dispatch, dropping the session when dispatch reports an error. The
dispatch response is an oracle standing for the device interaction. -/
def handle_command (st : DaemonState) (cmd : DaemonCommand) (dispatch_result : DaemonResponse) :
    DaemonState × DaemonResponse :=
  match cmd with
  | .ping => (st, .pong)
  | .setUpdateMode active =>
      if active then ({ device := none, update_in_progress := true }, .ok)
      else ({ st with update_in_progress := false }, .ok)
  | _ =>
      if st.update_in_progress then (st, .error "Firmware update in progress")
      else
        match st.device with
        | none => (st, .noDevice)
        | some _ =>
            match dispatch_result with
            | .error m => ({ st with device := none }, .error m)
            | r => (st, r)

/-- One pass of device_connection_loop: only when the update flag is
clear and no session exists may a newly enumerated device (if any) be
stored. -/
def reconnect_step (st : DaemonState) (found : Option DSState) : DaemonState :=
  if st.update_in_progress = false ∧ st.device = none then
    { st with device := found }
  else st

/-- Daemon states reachable from startup (no session, gate clear)
through client commands and reconnection passes. -/
inductive DaemonReachable : DaemonState → Prop where
  | init : DaemonReachable ⟨none, false⟩
  | cmd {st : DaemonState} (c : DaemonCommand) (oracle : DaemonResponse) :
      DaemonReachable st → DaemonReachable (handle_command st c oracle).1
  | reconnect {st : DaemonState} (found : Option DSState) :
      DaemonReachable st → DaemonReachable (reconnect_step st found)

/- Input transform button stage (transform.rs remap_buttons and
encode_button). The HashMap lookup and HashSet membership are modelled
as an Option-valued function and a Boolean predicate. -/

def BTN_SQUARE : Nat := 1 <<< 0
def BTN_CROSS : Nat := 1 <<< 1
def BTN_CIRCLE : Nat := 1 <<< 2
def BTN_TRIANGLE : Nat := 1 <<< 3
def BTN_L1 : Nat := 1 <<< 4
def BTN_R1 : Nat := 1 <<< 5
def BTN_L2 : Nat := 1 <<< 6
def BTN_R2 : Nat := 1 <<< 7
def BTN_CREATE : Nat := 1 <<< 8
def BTN_OPTIONS : Nat := 1 <<< 9
def BTN_L3 : Nat := 1 <<< 10
def BTN_R3 : Nat := 1 <<< 11
def BTN_PS : Nat := 1 <<< 12
def BTN_TOUCHPAD : Nat := 1 <<< 13
def BTN_MUTE : Nat := 1 <<< 14

def DPAD_NEUTRAL : Nat := 8
def DPAD_N : Nat := 0
def DPAD_NE : Nat := 1
def DPAD_E : Nat := 2
def DPAD_SE : Nat := 3
def DPAD_S : Nat := 4
def DPAD_SW : Nat := 5
def DPAD_W : Nat := 6
def DPAD_NW : Nat := 7

inductive Button where
  | square
  | cross
  | circle
  | triangle
  | l1
  | r1
  | l2
  | r2
  | create
  | options
  | l3
  | r3
  | ps
  | touchpad
  | mute
  | dpadUp
  | dpadRight
  | dpadDown
  | dpadLeft
deriving DecidableEq, Repr

/-- Translation of dpad_to_dirs: the 8-way code into the four direction
flags up, right, down, left. -/
def dpad_to_dirs (dpad : Nat) : List Bool :=
  if dpad = DPAD_N then [true, false, false, false]
  else if dpad = DPAD_NE then [true, true, false, false]
  else if dpad = DPAD_E then [false, true, false, false]
  else if dpad = DPAD_SE then [false, true, true, false]
  else if dpad = DPAD_S then [false, false, true, false]
  else if dpad = DPAD_SW then [false, false, true, true]
  else if dpad = DPAD_W then [false, false, false, true]
  else if dpad = DPAD_NW then [true, false, false, true]
  else [false, false, false, false]

/-- Translation of dirs_to_dpad: the four direction flags back into the
8-way code, neutral for any incoherent quad. -/
def dirs_to_dpad (d : List Bool) : Nat :=
  if d = [true, false, false, false] then DPAD_N
  else if d = [true, true, false, false] then DPAD_NE
  else if d = [false, true, false, false] then DPAD_E
  else if d = [false, true, true, false] then DPAD_SE
  else if d = [false, false, true, false] then DPAD_S
  else if d = [false, false, true, true] then DPAD_SW
  else if d = [false, false, false, true] then DPAD_W
  else if d = [true, false, false, true] then DPAD_NW
  else DPAD_NEUTRAL

/-- Translation of encode_button: or the mask bit of the button into the
accumulator, or set its direction flag. -/
def encode_button (btn : Button) (out : Nat) (dirs : List Bool) : Nat × List Bool :=
  match btn with
  | .square => (out ||| BTN_SQUARE, dirs)
  | .cross => (out ||| BTN_CROSS, dirs)
  | .circle => (out ||| BTN_CIRCLE, dirs)
  | .triangle => (out ||| BTN_TRIANGLE, dirs)
  | .l1 => (out ||| BTN_L1, dirs)
  | .r1 => (out ||| BTN_R1, dirs)
  | .l2 => (out ||| BTN_L2, dirs)
  | .r2 => (out ||| BTN_R2, dirs)
  | .create => (out ||| BTN_CREATE, dirs)
  | .options => (out ||| BTN_OPTIONS, dirs)
  | .l3 => (out ||| BTN_L3, dirs)
  | .r3 => (out ||| BTN_R3, dirs)
  | .ps => (out ||| BTN_PS, dirs)
  | .touchpad => (out ||| BTN_TOUCHPAD, dirs)
  | .mute => (out ||| BTN_MUTE, dirs)
  | .dpadUp => (out, dirs.set 0 true)
  | .dpadRight => (out, dirs.set 1 true)
  | .dpadDown => (out, dirs.set 2 true)
  | .dpadLeft => (out, dirs.set 3 true)

/-- The 19-entry pressed table built at the top of remap_buttons. -/
def active_buttons (buttons dpad : Nat) : List (Button × Bool) :=
  let dirs := dpad_to_dirs dpad
  [(.square, buttons &&& BTN_SQUARE ≠ 0),
   (.cross, buttons &&& BTN_CROSS ≠ 0),
   (.circle, buttons &&& BTN_CIRCLE ≠ 0),
   (.triangle, buttons &&& BTN_TRIANGLE ≠ 0),
   (.l1, buttons &&& BTN_L1 ≠ 0),
   (.r1, buttons &&& BTN_R1 ≠ 0),
   (.l2, buttons &&& BTN_L2 ≠ 0),
   (.r2, buttons &&& BTN_R2 ≠ 0),
   (.create, buttons &&& BTN_CREATE ≠ 0),
   (.options, buttons &&& BTN_OPTIONS ≠ 0),
   (.l3, buttons &&& BTN_L3 ≠ 0),
   (.r3, buttons &&& BTN_R3 ≠ 0),
   (.ps, buttons &&& BTN_PS ≠ 0),
   (.touchpad, buttons &&& BTN_TOUCHPAD ≠ 0),
   (.mute, buttons &&& BTN_MUTE ≠ 0),
   (.dpadUp, dirs.getD 0 false),
   (.dpadRight, dirs.getD 1 false),
   (.dpadDown, dirs.getD 2 false),
   (.dpadLeft, dirs.getD 3 false)]

/-- The main loop of remap_buttons: each pressed, non-disabled input is
remapped (defaulting to itself) and re-encoded; returns the new mask and
the four direction flags before their conversion back to the dpad
code. -/
def remap_buttons_core (buttons dpad : Nat) (remap : Button → Option Button)
    (disabled : Button → Bool) : Nat × List Bool :=
  (active_buttons buttons dpad).foldl
    (fun acc bp =>
      if bp.2 = false then acc
      else if disabled bp.1 then acc
      else
        let target := (remap bp.1).getD bp.1
        encode_button target acc.1 acc.2)
    (0, [false, false, false, false])

/-- Translation of remap_buttons: the core loop followed by the
conversion of the direction quad back into the dpad code. -/
def remap_buttons (buttons dpad : Nat) (remap : Button → Option Button)
    (disabled : Button → Bool) : Nat × Nat :=
  let (out, out_dirs) := remap_buttons_core buttons dpad remap disabled
  (out, dirs_to_dpad out_dirs)

/-- The bit a button occupies in the u32 mask, none for the four dpad
directions. -/
def button_bit (b : Button) : Option Nat :=
  match b with
  | .square => some 0
  | .cross => some 1
  | .circle => some 2
  | .triangle => some 3
  | .l1 => some 4
  | .r1 => some 5
  | .l2 => some 6
  | .r2 => some 7
  | .create => some 8
  | .options => some 9
  | .l3 => some 10
  | .r3 => some 11
  | .ps => some 12
  | .touchpad => some 13
  | .mute => some 14
  | _ => none

/-- The slot a dpad direction occupies in the direction quad. -/
def dir_index (b : Button) : Option Nat :=
  match b with
  | .dpadUp => some 0
  | .dpadRight => some 1
  | .dpadDown => some 2
  | .dpadLeft => some 3
  | _ => none

/-- Whether a button counts as pressed in the remap output: its mask bit
for the fifteen plain buttons, its direction flag for the four dpad
directions. -/
def pressed_in_output (out : Nat) (dirs : List Bool) (b : Button) : Bool :=
  match button_bit b with
  | some k => out.testBit k
  | none => dirs.getD ((dir_index b).getD 0) false

/- Trigger feedback encoder (app.rs apply_trigger, TriggerMode
Feedback). -/

/-- The zone computation of the Feedback arm: zones from position up to
9 get the configured strength; every non-zero zone contributes its bit
to active_zones and its 3-bit strength code to strength_zones. -/
def trigger_feedback_zones (position strength : Nat) : Nat × Nat :=
  let strengths := (List.range 10).map (fun i => if position ≤ i then strength else 0)
  (List.range 10).foldl
    (fun (z : Nat × Nat) i =>
      let s := strengths.getD i 0
      if s > 0 then
        (z.1 ||| (1 <<< i), z.2 ||| (((s - 1) &&& 0x07) <<< (3 * i)))
      else z)
    (0, 0)

/-- The 10-byte param block of the Feedback arm: active_zones
little-endian in the first two bytes, strength_zones little-endian in
the next four, the rest zero. -/
def trigger_feedback_params (position strength : Nat) : List Nat :=
  let z := trigger_feedback_zones position strength
  [z.1 &&& 0xff, (z.1 >>> 8) &&& 0xff,
   z.2 &&& 0xff, (z.2 >>> 8) &&& 0xff, (z.2 >>> 16) &&& 0xff, (z.2 >>> 24) &&& 0xff,
   0, 0, 0, 0]

/-- The set_trigger_effect call issued by the Feedback arm: both
triggers, mode 0x21, the encoded params. -/
def apply_trigger_feedback_call (position strength : Nat) : Bool × Bool × Nat × List Nat :=
  (true, true, DS_TRIGGER_EFFECT_FEEDBACK, trigger_feedback_params position strength)

def bt_session_start : DSState := ⟨true, 0, false⟩

def output_write_iter (n : Nat) : DSState :=
  (fun ds => (init_output_report ds).2)^[n] bt_session_start

/-- Battery decoding as the claim words it. -/
def claimed_battery_decode (status_byte : Nat) : BatteryInfo :=
  let bat_data := status_byte % 16
  let charging := status_byte / 16
  if charging = 0 then ⟨min 100 (bat_data * 10 + 5), "Discharging"⟩
  else if charging = 1 then ⟨min 100 (bat_data * 10 + 5), "Charging"⟩
  else if charging = 2 then ⟨min 100 (bat_data * 10 + 5), "Full"⟩
  else if charging = 0xa ∨ charging = 0xb then ⟨0, "Not charging"⟩
  else ⟨0, "Unknown"⟩

/-- The body origin of an output report: 3 on BT, 1 on USB. -/
def body_offset (ds : DSState) : Nat := if ds.is_bt then 3 else 1

/-- The report buffer built by set_trigger_effect just before it is
sent. -/
def trigger_effect_report (ds : DSState) (left right : Bool) (mode : Nat) (params : List Nat) :
    List Nat :=
  trigger_effect_build (body_offset ds) left right mode params (init_output_report ds).1

theorem output_write_iter_eq (n : Nat) : output_write_iter n = ⟨true, n % 16, false⟩ := by
  induction n with
  | zero => rfl
  | succ n ih =>
      rw [output_write_iter, Function.iterate_succ_apply', ← output_write_iter, ih]
      simp only [init_output_report, DSState.mk.injEq]
      norm_num

/-- C8: from a fresh BT session, after N output-report constructions the
rolling 4-bit counter equals N mod 16, and the next report (the N+1st)
carries N mod 16 shifted left by 4 in its byte 1 - equivalently, the Nth
report carries (N-1) mod 16 shifted left by 4. The counter advances
exactly once per report because the iteration step is
init_output_report, which every output write calls exactly once. -/
theorem bt_output_seq_counter (n : Nat) :
    (output_write_iter n).output_seq = n % 16 ∧
    ((init_output_report (output_write_iter n)).1)[1]? = some ((n % 16) <<< 4) := by
  rw [output_write_iter_eq]
  refine ⟨rfl, ?_⟩
  have h16 : n % 16 < 16 := Nat.mod_lt _ (by omega)
  simp only [init_output_report, if_pos]
  rw [List.getElem?_set_ne (by omega), List.getElem?_set_self (by decide)]
  rw [Nat.shiftLeft_eq]
  congr 1
  omega

/-- C2: update_firmware checks its preconditions in source order and
fails on the first violated one: Bluetooth transport first, then a
payload size other than 950272 bytes, then battery capacity under 10,
then a product-id mismatch against the little-endian u16 at firmware
offsets 0x62 and 0x63. A payload of 950271 bytes fails with the
invalid-size error whatever its content. -/
theorem update_firmware_precheck_order :
    (∀ fw cap pid, update_firmware_precheck true fw cap pid = some .bluetoothRefused) ∧
    (∀ fw cap pid, fw.length ≠ FIRMWARE_SIZE →
      update_firmware_precheck false fw cap pid = some .invalidSize) ∧
    (∀ fw cap pid, fw.length = FIRMWARE_SIZE → cap < 10 →
      update_firmware_precheck false fw cap pid = some .batteryLow) ∧
    (∀ fw cap pid, fw.length = FIRMWARE_SIZE → 10 ≤ cap →
      fw.getD 0x62 0 + 256 * fw.getD 0x63 0 ≠ pid →
      update_firmware_precheck false fw cap pid = some .incompatible) ∧
    (∀ fw cap pid, fw.length = 950271 →
      update_firmware_precheck false fw cap pid = some .invalidSize) := by
  refine ⟨?_, ?_, ?_, ?_, ?_⟩
  · intro fw cap pid
    simp [update_firmware_precheck]
  · intro fw cap pid h
    simp [update_firmware_precheck, h]
  · intro fw cap pid h hcap
    simp [update_firmware_precheck, h, DS_BATTERY_THRESHOLD, hcap]
  · intro fw cap pid h hcap hpid
    have h128 : ¬ (FIRMWARE_SIZE < 0x80) := by decide
    simp only [List.getD_eq_getElem?_getD] at hpid
    simp [update_firmware_precheck, check_firmware_compatibility, h, DS_BATTERY_THRESHOLD,
      Nat.not_lt.mpr hcap, h128, hpid]
  · intro fw cap pid h
    have hne : fw.length ≠ FIRMWARE_SIZE := by rw [h]; decide
    simp [update_firmware_precheck, hne]

theorem update_firmware_precheck_order_witness :
    update_firmware_precheck true [] 50 DS_PID = some .bluetoothRefused ∧
    update_firmware_precheck false [] 50 DS_PID = some .invalidSize ∧
    update_firmware_precheck false (List.replicate FIRMWARE_SIZE 0) 5 DS_PID = some .batteryLow ∧
    update_firmware_precheck false (List.replicate FIRMWARE_SIZE 0) 50 DS_PID = some .incompatible ∧
    update_firmware_precheck false (List.replicate 950271 0) 50 DS_PID = some .invalidSize := by
  refine ⟨update_firmware_precheck_order.1 _ _ _,
    update_firmware_precheck_order.2.1 _ _ _ (by decide),
    update_firmware_precheck_order.2.2.1 _ _ _ (List.length_replicate ..) (by omega),
    update_firmware_precheck_order.2.2.2.1 _ _ _ (List.length_replicate ..) (by omega) ?_,
    update_firmware_precheck_order.2.2.2.2 _ _ _ (List.length_replicate ..)⟩
  rw [List.getD_eq_getElem?_getD, List.getD_eq_getElem?_getD, List.getElem?_replicate,
    List.getElem?_replicate]
  norm_num [FIRMWARE_SIZE, DS_PID]

set_option maxRecDepth 4000 in
/-- C4: one status poll of firmware_wait_status fails immediately
whenever the phase byte differs from the expected phase; otherwise, for
each of the three phases and every status byte, the outcome kind
(success, retry after the 10 ms sleep, or failure) is exactly the one
in the documented per-phase status table. -/
theorem firmware_wait_status_table :
    (∀ expected phase status, phase ≠ expected →
      poll_classify expected phase status = .fail "Unexpected phase") ∧
    (∀ expected, expected < 3 → ∀ status, status < 256 →
      poll_kind (poll_classify expected expected status) =
        poll_kind (claimed_status_action expected status)) := by
  constructor
  · intro expected phase status h
    simp [poll_classify, h]
  · decide

theorem firmware_wait_status_table_witness :
    ((1:Nat) ≠ 0 ∧ poll_classify 0 1 0 = .fail "Unexpected phase") ∧
    ((1:Nat) < 3 ∧ (3:Nat) < 256 ∧
      poll_kind (poll_classify 1 1 3) = poll_kind (claimed_status_action 1 3)) :=
  ⟨⟨by decide, firmware_wait_status_table.1 0 1 0 (by decide)⟩,
   ⟨by decide, by decide, firmware_wait_status_table.2 1 (by decide) 3 (by decide)⟩⟩

/-- C5 counterexample: the encoder output at position 3, strength 5
differs from the param block the claim states, because the strength
zones value claimed (0x92492000) is not the sum the packing produces. -/
theorem trigger_feedback_s2_counterexample :
    trigger_feedback_params 3 5 ≠ [0xF8, 0x03, 0x00, 0x20, 0x49, 0x92, 0, 0, 0, 0] := by
  decide

/-- C5 amended: for the Feedback effect with position 3 and strength 5
the encoder produces active_zones 0x03F8 and strength_zones 0x24924800
(the sum of 4 shifted by 3i for i from 3 to 9), so the 10-byte params
are F8 03 00 48 92 24 00 00 00 00, sent with mode 0x21 to both
triggers. -/
theorem trigger_feedback_s2 :
    apply_trigger_feedback_call 3 5 =
      (true, true, 0x21, [0xF8, 0x03, 0x00, 0x48, 0x92, 0x24, 0, 0, 0, 0]) ∧
    trigger_feedback_zones 3 5 = (0x03F8, 0x24924800) := by
  decide

set_option maxRecDepth 8000 in
/-- C6: battery decoding takes the status byte at offset 53 (USB) or 54
(BT) of the report, splits it into low-nibble charge datum and
high-nibble charging state, and yields exactly the capacity formula and
status strings of the claim; capacity never exceeds 100, and the
concrete BT report with byte 54 = 0x1A decodes to capacity 100,
Charging. -/
theorem get_battery_decoding :
    (∀ sb, sb < 256 → battery_decode sb = claimed_battery_decode sb) ∧
    (∀ sb, (battery_decode sb).capacity ≤ 100) ∧
    (∀ ds buf, ds.update_mode = false →
      get_battery ds buf (if ds.is_bt then DS_INPUT_REPORT_BT_SIZE else DS_INPUT_REPORT_USB_SIZE) =
        if buf.getD 0 0 = (if ds.is_bt then DS_INPUT_REPORT_BT else DS_INPUT_REPORT_USB) then
          some (battery_decode (buf.getD (if ds.is_bt then 54 else 53) 0))
        else none) ∧
    get_battery ⟨true, 0, false⟩ (((List.replicate 78 0).set 0 0x31).set 54 0x1a) 78 =
      some ⟨100, "Charging"⟩ := by
  refine ⟨by decide, ?_, ?_, by decide⟩
  · intro sb
    simp only [battery_decode]
    split <;> simp
  · intro ds buf h
    cases hbt : ds.is_bt <;>
      simp [get_battery, h, hbt, DS_INPUT_REPORT_BT_SIZE, DS_INPUT_REPORT_USB_SIZE,
        DS_INPUT_REPORT_BT, DS_INPUT_REPORT_USB]

/- Lemmas about writeSlice and conditional sets. -/

theorem writeSlice_length (ps : List Nat) (buf : List Nat) (i : Nat) :
    (writeSlice buf i ps).length = buf.length := by
  induction ps generalizing buf i with
  | nil => rfl
  | cons p ps ih => rw [writeSlice, ih, List.length_set]

theorem writeSlice_getElem?_lt (ps : List Nat) (buf : List Nat) (i j : Nat) (h : j < i) :
    (writeSlice buf i ps)[j]? = buf[j]? := by
  induction ps generalizing buf i with
  | nil => rfl
  | cons p ps ih =>
      rw [writeSlice, ih _ _ (by omega), List.getElem?_set_ne (by omega)]

theorem writeSlice_getElem?_ge (ps : List Nat) (buf : List Nat) (i j : Nat)
    (h : i + ps.length ≤ j) :
    (writeSlice buf i ps)[j]? = buf[j]? := by
  induction ps generalizing buf i with
  | nil => rfl
  | cons p ps ih =>
      rw [writeSlice, ih _ _ (by simp at h; omega), List.getElem?_set_ne (by simp at h; omega)]

theorem writeSlice_getElem?_at (ps : List Nat) (buf : List Nat) (i k : Nat)
    (hk : k < ps.length) (hlen : i + k < buf.length) :
    (writeSlice buf i ps)[i + k]? = ps[k]? := by
  induction ps generalizing buf i k with
  | nil => simp at hk
  | cons p ps ih =>
      cases k with
      | zero =>
          rw [writeSlice, writeSlice_getElem?_lt _ _ _ _ (by omega)]
          simpa using List.getElem?_set_self (by omega)
      | succ k =>
          rw [writeSlice]
          have h2 : (i + 1) + k < (buf.set i p).length := by simp; omega
          have := ih (buf.set i p) (i + 1) k (by simpa using hk) h2
          rw [show i + (k + 1) = (i + 1) + k by omega, this]
          simp

theorem ite_set_length (c : Prop) [Decidable c] (l : List Nat) (i v : Nat) :
    (if c then l.set i v else l).length = l.length := by
  split <;> simp

theorem ite_set_getElem?_ne (c : Prop) [Decidable c] (l : List Nat) (i v j : Nat) (h : i ≠ j) :
    (if c then l.set i v else l)[j]? = l[j]? := by
  split
  · exact List.getElem?_set_ne h
  · rfl

theorem init_fst_length (ds : DSState) :
    ((init_output_report ds).1).length = if ds.is_bt then 78 else 63 := by
  cases hbt : ds.is_bt <;>
    simp [init_output_report, hbt, DS_OUTPUT_REPORT_BT_SIZE, DS_INPUT_REPORT_USB_SIZE]

theorem init_fst_getElem?_body (ds : DSState) (j : Nat) (h3 : body_offset ds ≤ j)
    (hj : j < (if ds.is_bt then 78 else 63)) :
    ((init_output_report ds).1)[j]? = some 0 := by
  cases hbt : ds.is_bt <;> simp only [hbt, if_true, if_false, Bool.false_eq_true] at hj <;>
    simp [body_offset, hbt] at h3 <;>
    simp only [init_output_report, hbt, if_true, if_false, Bool.false_eq_true]
  · rw [List.getElem?_set_ne (by omega), List.getElem?_replicate]
    simp [DS_INPUT_REPORT_USB_SIZE, hj]
  · rw [List.getElem?_set_ne (by omega), List.getElem?_set_ne (by omega),
      List.getElem?_set_ne (by omega), List.getElem?_replicate]
    simp [DS_OUTPUT_REPORT_BT_SIZE, hj]


theorem trigger_effect_build_spec (off L : Nat) (buf0 : List Nat) (mode : Nat)
    (params : List Nat) (left right : Bool) (hlen : buf0.length = L) (hbound : off + 32 ≤ L)
    (hzero : ∀ j, off ≤ j → j < L → buf0[j]? = some 0) (i : Nat) (hi : i < 10) :
    (trigger_effect_build off left right mode params buf0)[off + 10]? = some mode ∧
    (trigger_effect_build off left right mode params buf0)[off + 21]? = some mode ∧
    (trigger_effect_build off left right mode params buf0)[off + 11 + i]? =
      some (params.getD i 0) ∧
    (trigger_effect_build off left right mode params buf0)[off + 22 + i]? =
      some (params.getD i 0) ∧
    (trigger_effect_build off left right mode params buf0)[off]? =
      some ((if right then DS_OUTPUT_VALID_FLAG0_RIGHT_TRIGGER_MOTOR_ENABLE else 0) |||
            (if left then DS_OUTPUT_VALID_FLAG0_LEFT_TRIGGER_MOTOR_ENABLE else 0)) ∧
    trigger_effect_build off left right mode params buf0 =
      trigger_effect_build off left right mode (params.take 10) buf0 := by
  have htk : (params.take 10).length = min 10 params.length := by simp
  have h0 : buf0.getD off 0 = 0 := by
    rw [List.getD_eq_getElem?_getD, hzero _ (Nat.le_refl _) (by omega)]
    rfl
  simp only [trigger_effect_build]
  refine ⟨?_, ?_, ?_, ?_, ?_, ?_⟩
  · rw [writeSlice_getElem?_lt _ _ _ _ (by omega), List.getElem?_set_ne (by omega),
      writeSlice_getElem?_lt _ _ _ _ (by omega),
      List.getElem?_set_self (by simp [ite_set_length, hlen]; omega)]
  · rw [writeSlice_getElem?_lt _ _ _ _ (by omega),
      List.getElem?_set_self
        (by simp [ite_set_length, hlen, writeSlice_length, List.length_set]; omega)]
  · rcases Nat.lt_or_ge i (params.take 10).length with hcase | hcase
    · rw [writeSlice_getElem?_lt _ _ _ _ (by omega), List.getElem?_set_ne (by omega),
        writeSlice_getElem?_at _ _ _ _ hcase
          (by simp [ite_set_length, hlen, List.length_set]; omega),
        List.getElem?_take_of_lt hi, List.getD_eq_getElem?_getD,
        List.getElem?_eq_getElem (by simp [htk] at hcase; omega)]
      rfl
    · have hplen : params.length ≤ i := by simp [htk] at hcase; omega
      rw [writeSlice_getElem?_lt _ _ _ _ (by omega), List.getElem?_set_ne (by omega),
        writeSlice_getElem?_ge _ _ _ _ (by omega), List.getElem?_set_ne (by omega),
        ite_set_getElem?_ne _ _ _ _ _ (by omega), ite_set_getElem?_ne _ _ _ _ _ (by omega),
        hzero _ (by omega) (by omega), List.getD_eq_getElem?_getD,
        List.getElem?_eq_none (by omega)]
      rfl
  · rcases Nat.lt_or_ge i (params.take 10).length with hcase | hcase
    · rw [writeSlice_getElem?_at _ _ _ _ hcase
          (by simp [ite_set_length, hlen, List.length_set, writeSlice_length]; omega),
        List.getElem?_take_of_lt hi, List.getD_eq_getElem?_getD,
        List.getElem?_eq_getElem (by simp [htk] at hcase; omega)]
      rfl
    · have hplen : params.length ≤ i := by simp [htk] at hcase; omega
      rw [writeSlice_getElem?_ge _ _ _ _ (by omega), List.getElem?_set_ne (by omega),
        writeSlice_getElem?_ge _ _ _ _ (by omega), List.getElem?_set_ne (by omega),
        ite_set_getElem?_ne _ _ _ _ _ (by omega), ite_set_getElem?_ne _ _ _ _ _ (by omega),
        hzero _ (by omega) (by omega), List.getD_eq_getElem?_getD,
        List.getElem?_eq_none (by omega)]
      rfl
  · rw [writeSlice_getElem?_lt _ _ _ _ (by omega), List.getElem?_set_ne (by omega),
      writeSlice_getElem?_lt _ _ _ _ (by omega), List.getElem?_set_ne (by omega)]
    cases left <;> cases right <;>
      simp only [Bool.false_eq_true, if_true, if_false, ite_true, ite_false]
    · exact hzero _ (Nat.le_refl _) (by omega)
    · rw [List.getElem?_set_self (by simp [hlen]; omega), h0]
      simp
    · rw [List.getElem?_set_self (by simp [hlen]; omega)]
      rw [h0]
    · rw [List.getElem?_set_self (by simp [ite_set_length, hlen]; omega)]
      have h1 : (buf0.set off
          (buf0.getD off 0 ||| DS_OUTPUT_VALID_FLAG0_RIGHT_TRIGGER_MOTOR_ENABLE)).getD off 0 =
          buf0.getD off 0 ||| DS_OUTPUT_VALID_FLAG0_RIGHT_TRIGGER_MOTOR_ENABLE := by
        rw [List.getD_eq_getElem?_getD, List.getElem?_set_self (by simp [hlen]; omega)]
        rfl
      rw [h1, h0]
      simp
  · simp [List.take_take]

/-- C10: set_trigger_effect writes the mode byte and the ten param
bytes into both trigger slots whatever the two booleans say; the
booleans only pick the trigger-motor-enable bits of valid_flag0, and
bytes past the tenth param are ignored. -/
theorem set_trigger_effect_slots (ds : DSState) (left right : Bool) (mode : Nat)
    (params : List Nat) (i : Nat) (hi : i < 10) :
    (trigger_effect_report ds left right mode params)[body_offset ds + 10]? = some mode ∧
    (trigger_effect_report ds left right mode params)[body_offset ds + 21]? = some mode ∧
    (trigger_effect_report ds left right mode params)[body_offset ds + 11 + i]? =
      some (params.getD i 0) ∧
    (trigger_effect_report ds left right mode params)[body_offset ds + 22 + i]? =
      some (params.getD i 0) ∧
    (trigger_effect_report ds left right mode params)[body_offset ds]? =
      some ((if right then DS_OUTPUT_VALID_FLAG0_RIGHT_TRIGGER_MOTOR_ENABLE else 0) |||
            (if left then DS_OUTPUT_VALID_FLAG0_LEFT_TRIGGER_MOTOR_ENABLE else 0)) ∧
    trigger_effect_report ds left right mode params =
      trigger_effect_report ds left right mode (params.take 10) :=
  trigger_effect_build_spec (body_offset ds) (if ds.is_bt then 78 else 63)
    (init_output_report ds).1 mode params left right (init_fst_length ds)
    (by cases hbt : ds.is_bt <;> simp [body_offset, hbt])
    (fun j h1 h2 => init_fst_getElem?_body ds j h1 h2) i hi

theorem set_trigger_effect_slots_witness :
    (0:Nat) < 10 ∧
    (trigger_effect_report ⟨false, 0, false⟩ false true 5 [7])[body_offset ⟨false, 0, false⟩ + 10]? =
      some 5 :=
  ⟨by decide, (set_trigger_effect_slots ⟨false, 0, false⟩ false true 5 [7] 0 (by decide)).1⟩

theorem init_snd (ds : DSState) :
    (init_output_report ds).2.is_bt = ds.is_bt ∧
    (init_output_report ds).2.update_mode = ds.update_mode := by
  cases hbt : ds.is_bt <;> simp [init_output_report, hbt]

theorem init_fst_head (ds : DSState) :
    ((init_output_report ds).1)[0]? = some (if ds.is_bt then 0x31 else 2) := by
  cases hbt : ds.is_bt <;>
    simp only [init_output_report, hbt, if_true, if_false, Bool.false_eq_true,
      DS_OUTPUT_REPORT_BT, DS_OUTPUT_REPORT_USB]
  · rw [List.getElem?_set_self (by decide)]
  · rw [List.getElem?_set_ne (by decide), List.getElem?_set_ne (by decide),
      List.getElem?_set_self (by decide)]

theorem send_spec (ds1 : DSState) (data buf : List Nat)
    (hlen : data.length = (if ds1.is_bt then 78 else 63))
    (hhead : data[0]? = some (if ds1.is_bt then 0x31 else 2))
    (h : send_output_report ds1 data = some buf) :
    (ds1.is_bt = false → buf.length = 63 ∧ buf[0]? = some 0x02) ∧
    (ds1.is_bt = true → buf.length = 78 ∧ buf[0]? = some 0x31 ∧
      buf.drop 74 = u32_le_bytes (crc32 (0xA2 :: buf.take 74))) := by
  cases hum : ds1.update_mode
  · cases hbt : ds1.is_bt
    · have hlen2 : data.length = 63 := by rw [hlen, hbt]; rfl
      have hhead2 : data[0]? = some 2 := by rw [hhead, hbt]; rfl
      simp only [send_output_report, hum, hbt, Bool.false_eq_true, if_false] at h
      obtain rfl : data = buf := by simpa using h
      exact ⟨fun _ => ⟨hlen2, hhead2⟩, fun hc => by simp at hc⟩
    · have hlen2 : data.length = 78 := by rw [hlen, hbt]; rfl
      have hhead2 : data[0]? = some 0x31 := by rw [hhead, hbt]; rfl
      simp only [send_output_report, hum, hbt, if_true, Bool.false_eq_true, if_false,
        Option.some.injEq] at h
      rw [hlen2] at h
      norm_num at h
      have htake74 : (data.take 74).length = 74 := by rw [List.length_take, hlen2]; rfl
      subst h
      have hbuftake : (data.take 74 ++ u32_le_bytes (calc_crc32 data)).take 74 = data.take 74 :=
        List.take_left' htake74
      refine ⟨fun hc => by simp at hc, fun _ => ⟨?_, ?_, ?_⟩⟩
      · rw [List.length_append, htake74]
        rfl
      · rw [List.getElem?_append_left (by rw [htake74]; omega),
          List.getElem?_take_of_lt (by omega)]
        exact hhead2
      · rw [List.drop_left' htake74, hbuftake, calc_crc32, hlen2]
        norm_num [OUTPUT_CRC32_SEED]
  · simp [send_output_report, hum] at h


/-- C1: every report the session sends is a 63-byte buffer with first
byte 0x02 on USB; on BT a 78-byte buffer with first byte 0x31 whose last
4 bytes hold, little-endian, the CRC32 of the byte 0xA2 followed by the
first 74 bytes of the transmitted buffer. -/
theorem output_report_framing (ds : DSState) (cmd : OutCmd) (buf : List Nat)
    (h : (run_command ds cmd).1 = some buf) :
    (ds.is_bt = false → buf.length = 63 ∧ buf[0]? = some 0x02) ∧
    (ds.is_bt = true → buf.length = 78 ∧ buf[0]? = some 0x31 ∧
      buf.drop 74 = u32_le_bytes (crc32 (0xA2 :: buf.take 74))) := by
  have hbt1 := (init_snd ds).1
  rw [← hbt1]
  cases cmd with
  | setLightbar r g b brightness =>
      cases hbt : ds.is_bt <;>
        simp only [run_command, hbt, if_true, if_false, Bool.false_eq_true] at h <;>
        exact send_spec _ _ _
          (by simp [hbt1, hbt, init_fst_length])
          (by simp [hbt1, hbt, List.getElem?_set_ne, init_fst_head])
          h
  | setLightbarEnabled enabled =>
      cases hbt : ds.is_bt <;>
        simp only [run_command, hbt, if_true, if_false, Bool.false_eq_true] at h <;>
        exact send_spec _ _ _
          (by simp [hbt1, hbt, init_fst_length])
          (by simp [hbt1, hbt, List.getElem?_set_ne, init_fst_head])
          h
  | setPlayerLeds n =>
      cases hbt : ds.is_bt <;>
        simp only [run_command, hbt, if_true, if_false, Bool.false_eq_true] at h <;>
        split at h <;>
        first
          | exact send_spec _ _ _
              (by simp [hbt1, hbt, init_fst_length])
              (by simp [hbt1, hbt, List.getElem?_set_ne, init_fst_head])
              h
          | simp at h
  | setSpeaker mode =>
      cases hbt : ds.is_bt <;>
        simp only [run_command, hbt, if_true, if_false, Bool.false_eq_true] at h <;>
        exact send_spec _ _ _
          (by simp [hbt1, hbt, init_fst_length])
          (by simp [hbt1, hbt, List.getElem?_set_ne, init_fst_head])
          h
  | setVolume volume =>
      cases hbt : ds.is_bt <;>
        simp only [run_command, hbt, if_true, if_false, Bool.false_eq_true] at h <;>
        exact send_spec _ _ _
          (by simp [hbt1, hbt, init_fst_length])
          (by simp [hbt1, hbt, List.getElem?_set_ne, init_fst_head])
          h
  | setVibration rumble trigger =>
      cases hbt : ds.is_bt <;>
        simp only [run_command, hbt, if_true, if_false, Bool.false_eq_true] at h <;>
        exact send_spec _ _ _
          (by simp [hbt1, hbt, init_fst_length])
          (by simp [hbt1, hbt, List.getElem?_set_ne, init_fst_head])
          h
  | setMic enabled =>
      cases hbt : ds.is_bt <;> cases enabled <;>
        simp only [run_command, hbt, if_true, if_false, Bool.false_eq_true] at h <;>
        exact send_spec _ _ _
          (by simp [hbt1, hbt, init_fst_length])
          (by simp [hbt1, hbt, List.getElem?_set_ne, init_fst_head])
          h
  | setMicLed state =>
      cases hbt : ds.is_bt <;>
        simp only [run_command, hbt, if_true, if_false, Bool.false_eq_true] at h <;>
        exact send_spec _ _ _
          (by simp [hbt1, hbt, init_fst_length])
          (by simp [hbt1, hbt, List.getElem?_set_ne, init_fst_head])
          h
  | setTriggerEffect left right mode params =>
      cases hbt : ds.is_bt <;>
        simp only [run_command, hbt, if_true, if_false, Bool.false_eq_true] at h <;>
        exact send_spec _ _ _
          (by simp [hbt1, hbt, trigger_effect_build, ite_set_length, writeSlice_length,
            List.length_set, init_fst_length])
          (by simp [hbt1, hbt, trigger_effect_build, ite_set_getElem?_ne,
            writeSlice_getElem?_lt, List.getElem?_set_ne, init_fst_head])
          h
  | setTriggerOff =>
      cases hbt : ds.is_bt <;>
        simp only [run_command, hbt, if_true, if_false, Bool.false_eq_true] at h <;>
        exact send_spec _ _ _
          (by simp [hbt1, hbt, trigger_effect_build, ite_set_length, writeSlice_length,
            List.length_set, init_fst_length])
          (by simp [hbt1, hbt, trigger_effect_build, ite_set_getElem?_ne,
            writeSlice_getElem?_lt, List.getElem?_set_ne, init_fst_head])
          h

theorem output_report_framing_witness :
    (run_command ⟨false, 0, false⟩ (.setLightbar 200 100 50 128)).1 =
      some (((((List.replicate 63 0).set 0 2).set 2 4).set 45 100).set 46 50 |>.set 47 25) ∧
    ((false = false → (((((List.replicate 63 0).set 0 2).set 2 4).set 45 100).set 46 50
        |>.set 47 25).length = 63 ∧
      (((((List.replicate 63 0).set 0 2).set 2 4).set 45 100).set 46 50
        |>.set 47 25)[0]? = some 0x02)) :=
  ⟨by decide,
   (output_report_framing ⟨false, 0, false⟩ (.setLightbar 200 100 50 128) _ (by decide)).1⟩

theorem daemon_gate_no_device {st : DaemonState} (hr : DaemonReachable st) :
    st.update_in_progress = true → st.device = none := by
  induction hr with
  | init => intro _; rfl
  | cmd c oracle hr ih =>
      cases c
      case ping => exact ih
      case setUpdateMode active =>
        cases active
        · intro h
          simp [handle_command] at h
        · intro _
          rfl
      all_goals
        simp only [handle_command]
        split
        next => exact ih
        next =>
          split
          next => exact ih
          next =>
            split
            next => intro _; rfl
            next => exact ih
  | reconnect found hr ih =>
      rw [reconnect_step]
      split
      next hcond => intro h; rw [h] at hcond; simp at hcond
      next => exact ih

/-- C3 amended: in any reachable daemon state with the update flag set,
every command other than SetUpdateMode and Ping is answered with the
error response whose text is Firmware update in progress (capital F in
the source), the state is unchanged, the daemon holds no session, and
the response is not NoDevice. Ping is answered with Pong even during an
update, so the claim as stated needs the Ping exception. -/
theorem daemon_update_gate (st : DaemonState) (cmd : DaemonCommand) (oracle : DaemonResponse)
    (hr : DaemonReachable st) (hflag : st.update_in_progress = true)
    (hcmd : ∀ a, cmd ≠ .setUpdateMode a) (hping : cmd ≠ .ping) :
    handle_command st cmd oracle = (st, .error "Firmware update in progress") ∧
    st.device = none ∧
    DaemonResponse.error "Firmware update in progress" ≠ .noDevice := by
  refine ⟨?_, daemon_gate_no_device hr hflag, by simp⟩
  cases cmd
  case ping => exact absurd rfl hping
  case setUpdateMode a => exact absurd rfl (hcmd a)
  all_goals simp [handle_command, hflag]

theorem daemon_update_gate_witness :
    handle_command ⟨none, true⟩ .getBattery .pong =
      (⟨none, true⟩, .error "Firmware update in progress") ∧
    (DaemonState.mk none true).device = none ∧
    DaemonResponse.error "Firmware update in progress" ≠ .noDevice :=
  daemon_update_gate ⟨none, true⟩ .getBattery .pong
    (DaemonReachable.cmd (.setUpdateMode true) .pong DaemonReachable.init) rfl
    (fun _ h => DaemonCommand.noConfusion h) (fun h => DaemonCommand.noConfusion h)

theorem daemon_update_gate_counterexample :
    DaemonReachable ⟨none, true⟩ ∧
    (handle_command ⟨none, true⟩ .ping .pong).2 = .pong ∧
    (handle_command ⟨none, true⟩ .ping .pong).2 ≠ .error "firmware update in progress" :=
  ⟨DaemonReachable.cmd (.setUpdateMode true) .pong DaemonReachable.init, rfl, by decide⟩

theorem testBit_one_shiftLeft (k j : Nat) : (1 <<< k).testBit j = decide (k = j) := by
  rw [Nat.shiftLeft_eq, Nat.one_mul, Nat.testBit_two_pow]

theorem pressed_encode_other (t d : Button) (hne : t ≠ d) (out : Nat) (dirs : List Bool) :
    pressed_in_output (encode_button t out dirs).1 (encode_button t out dirs).2 d =
      pressed_in_output out dirs d := by
  cases t <;> cases d <;>
    simp_all [encode_button, pressed_in_output, button_bit, dir_index,
      BTN_SQUARE, BTN_CROSS, BTN_CIRCLE, BTN_TRIANGLE, BTN_L1, BTN_R1, BTN_L2, BTN_R2,
      BTN_CREATE, BTN_OPTIONS, BTN_L3, BTN_R3, BTN_PS, BTN_TOUCHPAD, BTN_MUTE,
      Nat.testBit_or, testBit_one_shiftLeft, List.getD_eq_getElem?_getD,
      List.getElem?_set_ne] <;>
    (try (intro h; exact absurd h (by decide)))

theorem remap_fold_invariant (remap : Button → Option Button) (disabled : Button → Bool)
    (d : Button) (hd : disabled d = true)
    (hremap : ∀ a b, remap a = some b → disabled b = false)
    (l : List (Button × Bool)) (acc : Nat × List Bool)
    (hacc : pressed_in_output acc.1 acc.2 d = false) :
    pressed_in_output
      (l.foldl (fun acc bp =>
        if bp.2 = false then acc
        else if disabled bp.1 then acc
        else encode_button ((remap bp.1).getD bp.1) acc.1 acc.2) acc).1
      (l.foldl (fun acc bp =>
        if bp.2 = false then acc
        else if disabled bp.1 then acc
        else encode_button ((remap bp.1).getD bp.1) acc.1 acc.2) acc).2 d = false := by
  induction l generalizing acc with
  | nil => exact hacc
  | cons bp l ih =>
      rw [List.foldl_cons]
      apply ih
      by_cases h1 : bp.2 = false
      · simpa [h1] using hacc
      · by_cases h2 : disabled bp.1
        · simpa [h1, h2] using hacc
        · have htarget : disabled ((remap bp.1).getD bp.1) = false := by
            cases hr : remap bp.1 with
            | none =>
                simp only [hr, Option.getD_none]
                exact Bool.not_eq_true _ ▸ (by simpa using h2)
            | some b => simpa [hr] using hremap _ _ hr
          have hne : (remap bp.1).getD bp.1 ≠ d := by
            intro he
            rw [he] at htarget
            rw [hd] at htarget
            exact Bool.noConfusion htarget
          have hstep : (if bp.2 = false then acc
              else if disabled bp.1 then acc
              else encode_button ((remap bp.1).getD bp.1) acc.1 acc.2) =
              encode_button ((remap bp.1).getD bp.1) acc.1 acc.2 := by
            simp [h1, h2]
          rw [hstep, pressed_encode_other _ _ hne]
          exact hacc

/-- C7 amended: whenever no remap target lies in the disabled set (in
particular for an empty remap), a disabled button is never pressed in
the remap output: its mask bit is absent and its direction flag stays
clear. Without that hypothesis the property fails, because the disabled
check runs on the source button only and another button may be remapped
onto a disabled one. -/
theorem remap_disabled_buttons (buttons dpad : Nat) (remap : Button → Option Button)
    (disabled : Button → Bool)
    (hremap : ∀ a b, remap a = some b → disabled b = false)
    (d : Button) (hd : disabled d = true) :
    pressed_in_output (remap_buttons buttons dpad remap disabled).1
      (remap_buttons_core buttons dpad remap disabled).2 d = false := by
  have hinit : pressed_in_output 0 [false, false, false, false] d = false := by
    cases d <;> decide
  exact remap_fold_invariant remap disabled d hd hremap (active_buttons buttons dpad)
    (0, [false, false, false, false]) hinit

theorem remap_disabled_buttons_witness :
    (fun b => decide (b = Button.mute)) Button.mute = true ∧
    pressed_in_output
      (remap_buttons 0x7FFF 0 (fun _ => none) (fun b => decide (b = Button.mute))).1
      (remap_buttons_core 0x7FFF 0 (fun _ => none) (fun b => decide (b = Button.mute))).2
      Button.mute = false :=
  ⟨rfl, remap_disabled_buttons 0x7FFF 0 _ _ (fun _ _ h => Option.noConfusion h)
    Button.mute rfl⟩

theorem remap_disabled_buttons_counterexample :
    (fun b => decide (b = Button.cross)) Button.cross = true ∧
    pressed_in_output
      (remap_buttons 1 8 (fun b => if b = Button.square then some Button.cross else none)
        (fun b => decide (b = Button.cross))).1
      (remap_buttons_core 1 8 (fun b => if b = Button.square then some Button.cross else none)
        (fun b => decide (b = Button.cross))).2
      Button.cross = true := by
  decide

theorem chunk_progress_bounds (total o co : Nat) :
    5 ≤ chunk_progress total o co ∧ chunk_progress total o co ≤ 95 := by
  simp only [chunk_progress]
  generalize ((o + co - 256 + min (total - (o + co)) (min (0x8000 - co) 57)) * 90 /
    max (total - 256) 1) = q
  omega

theorem chunk_progress_mono (total o co o2 co2 : Nat)
    (ho : 256 ≤ o) (hoo : o ≤ o2) (hco : o + co < total) (hco2 : o2 + co2 < total)
    (hkey : o + co + min (0x8000 - co) 57 ≤ o2 + co2 + min (0x8000 - co2) 57) :
    chunk_progress total o co ≤ chunk_progress total o2 co2 := by
  have hw : o + co - 256 + min (total - (o + co)) (min (0x8000 - co) 57) ≤
      o2 + co2 - 256 + min (total - (o2 + co2)) (min (0x8000 - co2) 57) := by
    omega
  have hq : (o + co - 256 + min (total - (o + co)) (min (0x8000 - co) 57)) * 90 /
      max (total - 256) 1 ≤
      (o2 + co2 - 256 + min (total - (o2 + co2)) (min (0x8000 - co2) 57)) * 90 /
      max (total - 256) 1 :=
    Nat.div_le_div_right (Nat.mul_le_mul_right _ hw)
  simp only [chunk_progress]
  omega

theorem stepBy_pairwise (start stop step : Nat) :
    (stepBy start stop step).Pairwise (fun a b => a + step ≤ b) := by
  rw [stepBy]
  refine (List.pairwise_lt_range _).map _ ?_
  intro i j hij
  have h1 : (i + 1) * step ≤ j * step := Nat.mul_le_mul_right _ hij
  calc start + i * step + step = start + (i + 1) * step := by ring
    _ ≤ start + j * step := by omega

theorem mem_stepBy {start stop step x : Nat} (h : x ∈ stepBy start stop step) :
    ∃ i, i < (stop - start + step - 1) / step ∧ x = start + i * step := by
  rw [stepBy] at h
  obtain ⟨i, hi, rfl⟩ := List.mem_map.1 h
  exact ⟨i, List.mem_range.1 hi, rfl⟩

theorem page_chunks_mem {total o co : Nat} (h : co ∈ page_chunks total o) :
    o + co < total ∧ co ≤ 32718 := by
  rw [page_chunks] at h
  constructor
  · have := List.mem_takeWhile_imp h
    simpa using this
  · have hmem : co ∈ stepBy 0 0x8000 57 := (List.takeWhile_sublist _).subset h
    obtain ⟨i, hi, rfl⟩ := mem_stepBy hmem
    omega

theorem page_progress_pairwise (total o : Nat) (ho : 256 ≤ o) :
    (page_progress total o).Pairwise (· ≤ ·) := by
  rw [page_progress, List.pairwise_map]
  have hpw : (page_chunks total o).Pairwise (fun a b => a + 57 ≤ b) :=
    List.Pairwise.sublist (List.takeWhile_sublist _) (stepBy_pairwise 0 0x8000 57)
  refine hpw.imp_of_mem ?_
  intro a b ha hb hab
  have h1 := page_chunks_mem ha
  have h2 := page_chunks_mem hb
  exact chunk_progress_mono total o a o b ho (Nat.le_refl _) h1.1 h2.1 (by omega)

theorem firmware_write_progress_pairwise (total : Nat) :
    (firmware_write_progress total).Pairwise (· ≤ ·) := by
  rw [firmware_write_progress, List.pairwise_flatMap]
  constructor
  · intro o hmem
    obtain ⟨i, hi, rfl⟩ := mem_stepBy hmem
    exact page_progress_pairwise total _ (by omega)
  · have hpp : (stepBy 256 total 0x8000).Pairwise (fun a b => a + 0x8000 ≤ b) :=
      stepBy_pairwise 256 total 0x8000
    refine hpp.imp_of_mem ?_
    intro o o2 hmo hmo2 hoo x hx y hy
    obtain ⟨i, hi, rfl⟩ := mem_stepBy hmo
    rw [page_progress] at hx hy
    obtain ⟨co, hco, rfl⟩ := List.mem_map.1 hx
    obtain ⟨co2, hco2, rfl⟩ := List.mem_map.1 hy
    have h1 := page_chunks_mem hco
    have h2 := page_chunks_mem hco2
    exact chunk_progress_mono total _ co o2 co2 (by omega) (by omega) h1.1 h2.1 (by omega)

theorem firmware_write_progress_bound (total : Nat) :
    ∀ p ∈ firmware_write_progress total, 5 ≤ p ∧ p ≤ 95 := by
  intro p hp
  rw [firmware_write_progress] at hp
  obtain ⟨o, _, hp⟩ := List.mem_flatMap.1 hp
  rw [page_progress] at hp
  obtain ⟨co, _, rfl⟩ := List.mem_map.1 hp
  exact chunk_progress_bounds total o co

theorem update_firmware_progress_chain (total : Nat) :
    List.Chain' (· ≤ ·) (update_firmware_progress total) := by
  rw [update_firmware_progress, List.chain'_cons]
  refine ⟨by omega, ?_⟩
  rw [List.chain'_cons']
  constructor
  · intro y hy
    rw [List.head?_append] at hy
    rcases ho : (firmware_write_progress total).head? with _ | p
    · rw [ho] at hy
      simp at hy
      omega
    · rw [ho] at hy
      simp at hy
      have := (firmware_write_progress_bound total p
        (List.mem_of_mem_head? (by rw [ho]; rfl))).1
      omega
  · rw [List.chain'_append]
    refine ⟨(firmware_write_progress_pairwise total).chain',
      List.chain'_cons.mpr ⟨by omega, List.chain'_cons.mpr ⟨by omega, List.chain'_singleton _⟩⟩,
      ?_⟩
    intro x hx y hy
    simp at hy
    have := (firmware_write_progress_bound total x (List.mem_of_mem_getLast? hx)).2
    omega

theorem progress_values_append (a b : List FlashEvent) :
    progress_values (a ++ b) = progress_values a ++ progress_values b := by
  simp [progress_values]

theorem progress_values_map_progress (xs : List Nat) :
    progress_values (xs.map .progress) = xs := by
  induction xs with
  | nil => rfl
  | cons x xs ih =>
      simp only [progress_values, List.map_cons, List.filterMap_cons] at ih ⊢
      rw [ih]

theorem countP_map_progress (xs : List Nat) :
    (xs.map FlashEvent.progress).countP is_terminal = 0 := by
  induction xs with
  | nil => rfl
  | cons x xs ih =>
      simp only [List.map_cons, List.countP_cons, ih]
      rfl

theorem flash_half_progress_chain : List.Chain' (· ≤ ·) flash_half_progress :=
  (List.chain'_map _).mpr
    ((update_firmware_progress_chain FIRMWARE_SIZE).imp (fun h => by omega))

theorem flash_half_progress_lower : ∀ y ∈ flash_half_progress, 50 ≤ y := by
  intro y hy
  obtain ⟨p, _, rfl⟩ := List.mem_map.1 hy
  omega

attribute [irreducible] flash_half_progress

theorem map_progress_half (xs : List Nat) :
    xs.map (fun p => FlashEvent.progress (p / 2)) = (xs.map (· / 2)).map .progress := by
  rw [List.map_map]
  rfl


theorem flash_run_spec (hs : List Nat) (k : Nat)
    (hchain : List.Chain' (· ≤ ·) hs) (hlow : ∀ y ∈ hs, 50 ≤ y) :
    (flash_run_events hs k).countP is_terminal = 1 ∧
    List.Chain' (· ≤ ·) (progress_values (flash_run_events hs k)) ∧
    (∀ y ∈ progress_values (flash_run_events hs k), 50 ≤ y) := by
  rw [flash_run_events]
  split
  · refine ⟨?_, ?_, ?_⟩
    · rw [List.countP_append, countP_map_progress]
      rfl
    · rw [progress_values_append, progress_values_map_progress]
      have h2 : progress_values [FlashEvent.error "flash failed"] = [] := rfl
      rw [h2, List.append_nil]
      exact List.chain'_iff_pairwise.mpr
        (List.Pairwise.sublist (List.take_sublist _ _) (List.chain'_iff_pairwise.mp hchain))
    · intro y hy
      rw [progress_values_append, progress_values_map_progress] at hy
      have h2 : progress_values [FlashEvent.error "flash failed"] = [] := rfl
      rw [h2, List.append_nil] at hy
      exact hlow y ((List.take_sublist _ _).subset hy)
  · refine ⟨?_, ?_, ?_⟩
    · rw [List.countP_append, countP_map_progress]
      rfl
    · rw [progress_values_append, progress_values_map_progress]
      have h2 : progress_values [FlashEvent.complete] = [] := rfl
      rw [h2, List.append_nil]
      exact hchain
    · intro y hy
      rw [progress_values_append, progress_values_map_progress] at hy
      have h2 : progress_values [FlashEvent.complete] = [] := rfl
      rw [h2, List.append_nil] at hy
      exact hlow y hy

/-- C9: the flash worker posts exactly one terminal event per flash,
and the progress values it delivers are non-decreasing, provided the
external downloader reports non-decreasing percentages up to 100. The
flash side needs no such assumption: its milestone list (0, 5, the body
values capped at 95, then 95, 98, 100) is proved non-decreasing for the
only payload size that passes the prechecks. -/
theorem flash_progress_events (download_ps : List Nat) (download_ok : Bool) (k : Nat)
    (hchain : List.Chain' (· ≤ ·) download_ps) (hle : ∀ p ∈ download_ps, p ≤ 100) :
    (flash_latest_events download_ps download_ok k).countP is_terminal = 1 ∧
    List.Chain' (· ≤ ·) (progress_values (flash_latest_events download_ps download_ok k)) := by
  have hdl_chain : List.Chain' (· ≤ ·) (download_ps.map (· / 2)) :=
    (List.chain'_map _).mpr (hchain.imp (fun _ _ h => Nat.div_le_div_right h))
  have hdl_last : ∀ x ∈ (download_ps.map (· / 2)).getLast?, x ≤ 50 := by
    intro x hx
    obtain ⟨p, hp, rfl⟩ := List.mem_map.1 (List.mem_of_mem_getLast? hx)
    have := hle p hp
    omega
  cases download_ok with
  | false =>
      refine ⟨?_, ?_⟩
      · simp only [flash_latest_events, Bool.false_eq_true, if_false, List.countP_append,
          map_progress_half]
        rw [countP_map_progress]
        rfl
      · simp only [flash_latest_events, Bool.false_eq_true, if_false, map_progress_half]
        rw [progress_values_append, progress_values_map_progress]
        have h2 : progress_values [FlashEvent.error "download failed"] = [] := rfl
        rw [h2, List.append_nil]
        exact hdl_chain
  | true =>
      have hspec :=
        flash_run_spec flash_half_progress k flash_half_progress_chain flash_half_progress_lower
      have hcons_pv : ∀ l : List FlashEvent,
          progress_values (FlashEvent.statusText "Flashing..." :: l) = progress_values l := by
        intro l
        rw [progress_values, progress_values, List.filterMap_cons]
      have hcons_count : ∀ l : List FlashEvent,
          (FlashEvent.statusText "Flashing..." :: l).countP is_terminal =
          l.countP is_terminal := by
        intro l
        rw [List.countP_cons]
        simp [is_terminal]
      refine ⟨?_, ?_⟩
      · simp only [flash_latest_events, eq_self_iff_true, if_true, List.countP_append,
          map_progress_half]
        rw [countP_map_progress, hcons_count _, hspec.1]
      · simp only [flash_latest_events, eq_self_iff_true, if_true, map_progress_half]
        rw [progress_values_append, progress_values_map_progress, hcons_pv _]
        rw [List.chain'_append]
        refine ⟨hdl_chain, ?_, ?_⟩
        · exact hspec.2.1
        · intro x hx y hy
          exact Nat.le_trans (hdl_last x hx) (hspec.2.2 y (List.mem_of_mem_head? hy))

theorem flash_progress_events_witness :
    List.Chain' (· ≤ ·) [0, 100] ∧ (∀ p ∈ ([0, 100] : List Nat), p ≤ 100) ∧
    ((flash_latest_events [0, 100] false 0).countP is_terminal = 1 ∧
      List.Chain' (· ≤ ·) (progress_values (flash_latest_events [0, 100] false 0))) :=
  ⟨List.chain'_cons.mpr ⟨by omega, List.chain'_singleton _⟩, by decide,
   flash_progress_events [0, 100] false 0
     (List.chain'_cons.mpr ⟨by omega, List.chain'_singleton _⟩) (by decide)⟩

theorem get_battery_decoding_witness :
    ((0x1A:Nat) < 256 ∧ battery_decode 0x1A = claimed_battery_decode 0x1A) ∧
    ((DSState.mk false 0 false).update_mode = false ∧
      get_battery ⟨false, 0, false⟩ [] 64 = none) :=
  ⟨⟨by decide, get_battery_decoding.1 0x1A (by decide)⟩,
   ⟨rfl, by
      simpa [DS_INPUT_REPORT_USB_SIZE, DS_INPUT_REPORT_USB] using
        get_battery_decoding.2.2.1 ⟨false, 0, false⟩ [] rfl⟩⟩
